import Mathlib

/-!
# Verification of the Iron-Eye kettlebell snatch detector core

Shallow embedding of the two core modules of the repository:

* `src/lib/filters/KalmanFilter.ts` — the 1D constant-velocity Kalman filter
  (`KalmanFilter1D`), embedded over exact rationals `ℚ`.
* the snatch rep detector (`SnatchRepDetector`) — phase state machine,
  rep/set aggregation, power estimation and fatigue analysis.

JavaScript numbers are modelled by `JNum`: a tagged rational extended with
`nan`, `inf` (`Infinity`) and `ninf` (`-Infinity`), with the IEEE/ECMAScript
special-value propagation rules for the arithmetic, `Math.min`/`Math.max`,
`Math.abs`, `Math.round` and comparisons that the detector uses (rounding of
finite values to binary floating point is idealised away: finite values are
exact rationals).  Quantities that the source code can only ever hold as
finite numbers (timestamps, thresholds, filtered velocities) are embedded
directly as `ℚ`.
-/

/-! ## JavaScript number model -/

/-- A JavaScript number: an exact rational, or one of the special values
`NaN`, `Infinity`, `-Infinity`. -/
inductive JNum where
  | num (q : ℚ)
  | nan
  | inf
  | ninf
deriving DecidableEq, Repr

namespace JNum

/-- JS unary negation. -/
def jneg : JNum → JNum
  | num a => num (-a)
  | nan => nan
  | inf => ninf
  | ninf => inf

/-- JS addition. -/
def jadd : JNum → JNum → JNum
  | num a, num b => num (a + b)
  | nan, _ => nan
  | _, nan => nan
  | inf, ninf => nan
  | ninf, inf => nan
  | inf, _ => inf
  | _, inf => inf
  | ninf, _ => ninf
  | _, ninf => ninf

/-- JS subtraction (`a - b = a + (-b)`). -/
def jsub (a b : JNum) : JNum := jadd a (jneg b)

/-- JS multiplication. -/
def jmul : JNum → JNum → JNum
  | num a, num b => num (a * b)
  | nan, _ => nan
  | _, nan => nan
  | inf, inf => inf
  | inf, ninf => ninf
  | ninf, inf => ninf
  | ninf, ninf => inf
  | inf, num b => if b = 0 then nan else if 0 < b then inf else ninf
  | num a, inf => if a = 0 then nan else if 0 < a then inf else ninf
  | ninf, num b => if b = 0 then nan else if 0 < b then ninf else inf
  | num a, ninf => if a = 0 then nan else if 0 < a then ninf else inf

/-- JS division (positive zero only: `x/0` is `±Infinity` or `NaN`). -/
def jdiv : JNum → JNum → JNum
  | nan, _ => nan
  | _, nan => nan
  | num a, num b =>
      if b = 0 then (if a = 0 then nan else if 0 < a then inf else ninf)
      else num (a / b)
  | num _, inf => num 0
  | num _, ninf => num 0
  | inf, num b => if 0 ≤ b then inf else ninf
  | ninf, num b => if 0 ≤ b then ninf else inf
  | inf, inf => nan
  | inf, ninf => nan
  | ninf, inf => nan
  | ninf, ninf => nan

/-- `Math.max` on two arguments (`NaN`-propagating). -/
def jmax : JNum → JNum → JNum
  | nan, _ => nan
  | _, nan => nan
  | inf, _ => inf
  | _, inf => inf
  | ninf, b => b
  | a, ninf => a
  | num a, num b => num (max a b)

/-- `Math.min` on two arguments (`NaN`-propagating). -/
def jmin : JNum → JNum → JNum
  | nan, _ => nan
  | _, nan => nan
  | ninf, _ => ninf
  | _, ninf => ninf
  | inf, b => b
  | a, inf => a
  | num a, num b => num (min a b)

/-- `Math.abs`. -/
def jabs : JNum → JNum
  | num a => num |a|
  | nan => nan
  | inf => inf
  | ninf => inf

/-- JS `<` comparison: `false` whenever an operand is `NaN`. -/
def jlt : JNum → JNum → Bool
  | nan, _ => false
  | _, nan => false
  | num a, num b => decide (a < b)
  | ninf, ninf => false
  | ninf, _ => true
  | _, ninf => false
  | inf, _ => false
  | num _, inf => true

/-- JS `>` comparison. -/
def jgt (a b : JNum) : Bool := jlt b a

/-- JS `>=` comparison: `false` whenever an operand is `NaN`. -/
def jge : JNum → JNum → Bool
  | nan, _ => false
  | _, nan => false
  | a, b => !(jlt a b)

/-- `Math.round` on an exact rational: ties round toward `+∞`. -/
def jroundQ (q : ℚ) : ℚ := (⌊q + 1/2⌋ : ℤ)

/-- `Math.round` on a JS number. -/
def jround : JNum → JNum
  | num a => num (jroundQ a)
  | nan => nan
  | inf => inf
  | ninf => ninf

/-- `array.reduce((a, b) => a + b, 0)` over JS numbers. -/
def jsum (l : List JNum) : JNum := l.foldl jadd (num 0)

/-- `Math.max(...l)` over JS numbers (`-Infinity` on the empty array). -/
def jmaxList (l : List JNum) : JNum := l.foldl jmax ninf

/-- `Math.max(...l)` over an array of finite numbers. -/
def jmaxListQ (l : List ℚ) : JNum := l.foldl (fun a q => jmax a (num q)) ninf

/-- `Math.min(...l)` over an array of finite numbers. -/
def jminListQ (l : List ℚ) : JNum := l.foldl (fun a q => jmin a (num q)) inf

end JNum

open JNum

/-! ## `KalmanFilter.ts`: the 1D constant-velocity Kalman filter

The filter's arithmetic is embedded over `ℚ`; its state stays finite for
every input the detector feeds it.  Field and method names follow the
source (`KalmanConfig`, `KalmanState`, `KalmanFilter1D`, `predict`,
`update`, `reset`). -/

/-- `KalmanConfig` of `KalmanFilter.ts`. -/
structure KalmanConfig where
  processNoise : ℚ
  measurementNoise : ℚ
  initialPositionVariance : ℚ
  initialVelocityVariance : ℚ
deriving DecidableEq, Repr

/-- `KalmanState` of `KalmanFilter.ts`. -/
structure KalmanState where
  position : ℚ
  velocity : ℚ
  positionVariance : ℚ
  velocityVariance : ℚ
  covariance : ℚ
deriving DecidableEq, Repr

/-- The `KalmanFilter1D` object: configuration, mutable state and the
`lastTimestamp` field (`null` modelled by `none`). -/
structure KalmanFilter1D where
  config : KalmanConfig
  state : KalmanState
  lastTimestamp : Option ℚ
deriving DecidableEq, Repr

namespace KalmanFilter1D

/-- `KalmanFilter1D.predict(dt)`: state transition `x ← x + v·dt`, `v ← v`,
covariance propagation `P ← F P Fᵀ + Q` (all right-hand sides use the
destructured pre-call values, exactly as the source destructures
`this.state` before assigning). -/
def predict (cfg : KalmanConfig) (s : KalmanState) (dt : ℚ) : KalmanState :=
  let dt2 := dt * dt
  { position := s.position + s.velocity * dt
    velocity := s.velocity
    positionVariance :=
      s.positionVariance + 2 * dt * s.covariance + dt2 * s.velocityVariance +
        cfg.processNoise * dt2
    velocityVariance := s.velocityVariance + cfg.processNoise
    covariance := s.covariance + dt * s.velocityVariance + cfg.processNoise * dt }

/-- The measurement-correction half of `KalmanFilter1D.update`. -/
def correct (cfg : KalmanConfig) (s : KalmanState) (measurement : ℚ) : KalmanState :=
  let innovation := measurement - s.position
  let innovationVariance := s.positionVariance + cfg.measurementNoise
  let kalmanGainPosition := s.positionVariance / innovationVariance
  let kalmanGainVelocity := s.covariance / innovationVariance
  { position := s.position + kalmanGainPosition * innovation
    velocity := s.velocity + kalmanGainVelocity * innovation
    positionVariance := (1 - kalmanGainPosition) * s.positionVariance
    velocityVariance := s.velocityVariance - kalmanGainVelocity * s.covariance
    covariance := (1 - kalmanGainPosition) * s.covariance }

/-- The `dt` computation at the head of `KalmanFilter1D.update`: default
`1/30` s on the first call, otherwise `(timestamp − last)/1000` clamped to
`[0.001, 0.5]`. -/
def updateDt (f : KalmanFilter1D) (timestamp : ℚ) : ℚ :=
  match f.lastTimestamp with
  | none => 1 / 30
  | some t0 => max (1 / 1000) (min ((timestamp - t0) / 1000) (1 / 2))

/-- `KalmanFilter1D.update(measurement, timestamp)`: compute the clamped
`dt`, run the predict step, then the correction step; returns the new
filter object together with the returned state snapshot. -/
def update (f : KalmanFilter1D) (measurement timestamp : ℚ) :
    KalmanFilter1D × KalmanState :=
  let dt := f.updateDt timestamp
  let sp := predict f.config f.state dt
  let s1 := correct f.config sp measurement
  (⟨f.config, s1, some timestamp⟩, s1)

/-- `KalmanFilter1D.reset(initialPosition)`. -/
def reset (f : KalmanFilter1D) (initialPosition : ℚ) : KalmanFilter1D :=
  { config := f.config
    state :=
      { position := initialPosition
        velocity := 0
        positionVariance := f.config.initialPositionVariance
        velocityVariance := f.config.initialVelocityVariance
        covariance := 0 }
    lastTimestamp := none }

end KalmanFilter1D

/-- C2: on every call to `KalmanFilter1D.update`, the predict step applied to
the pre-call state uses exactly the clamped `dt` and transforms the state by
`position' = position + velocity·dt`, `velocity' = velocity`,
`positionVariance' = positionVariance + 2·dt·covariance + dt²·velocityVariance + Q·dt²`,
`velocityVariance' = velocityVariance + Q`, and
`covariance' = covariance + dt·velocityVariance + Q·dt` with the pre-update
`velocityVariance`, where `Q` is the configured process noise. -/
theorem scalar_estimator_predict_spec :
    (∀ (cfg : KalmanConfig) (s : KalmanState) (dt : ℚ),
      KalmanFilter1D.predict cfg s dt =
        { position := s.position + s.velocity * dt
          velocity := s.velocity
          positionVariance :=
            s.positionVariance + 2 * dt * s.covariance +
              dt ^ 2 * s.velocityVariance + cfg.processNoise * dt ^ 2
          velocityVariance := s.velocityVariance + cfg.processNoise
          covariance :=
            s.covariance + dt * s.velocityVariance + cfg.processNoise * dt }) ∧
    (∀ (f : KalmanFilter1D) (m t : ℚ),
      (f.update m t).1.state =
        KalmanFilter1D.correct f.config
          (KalmanFilter1D.predict f.config f.state (f.updateDt t)) m) := by
  constructor
  · intro cfg s dt
    simp only [KalmanFilter1D.predict, KalmanState.mk.injEq, and_true, true_and,
      eq_self_iff_true]
    ring
  · intro f m t
    rfl

/-! ## Data model of the snatch rep detector -/

/-- The `SnatchPhase` enum (`ret` stands for the source's `RETURN`). -/
inductive SnatchPhase where
  | idle
  | backswing
  | hike
  | pull
  | punch
  | lockout
  | drop
  | ret
deriving DecidableEq, Repr

/-- The `'left' | 'right'` hand tag. -/
inductive Hand where
  | left
  | right
deriving DecidableEq, Repr

/-- The fields of the `JointAngles` record that the detector reads (the
pose service also produces `leftShoulder`, `rightShoulder`, `leftKnee`,
`rightKnee` and `spine`, which `SnatchRepDetector` never accesses). -/
structure JointAngles where
  leftElbow : ℚ
  rightElbow : ℚ
  leftHip : ℚ
  rightHip : ℚ
  leftShoulderAbduction : ℚ
  rightShoulderAbduction : ℚ
deriving DecidableEq, Repr

/-- An entry of `phaseHistory`: `{phase, startTime, endTime}`. -/
structure PhaseInterval where
  phase : SnatchPhase
  startTime : ℚ
  endTime : ℚ
deriving DecidableEq, Repr

/-- An entry of `RepData.phases`: a phase interval with its duration. -/
structure RepPhase where
  phase : SnatchPhase
  startTime : ℚ
  endTime : ℚ
  duration : ℚ
deriving DecidableEq, Repr

/-- `RepData.jointAngles`: per-rep joint-angle extrema.  The maxima/minima
are `Math.max`/`Math.min` spreads, hence `JNum` (they are `±Infinity` when
the sample window is empty). -/
structure RepJointAngles where
  maxShoulderAbduction : JNum
  maxElbowAngle : JNum
  minHipAngle : JNum
  lockoutShoulderAngle : ℚ
deriving DecidableEq, Repr

/-- `RepData` (the `message`-free part of the record; all numeric fields
that arise from JS arithmetic that can produce special values are `JNum`). -/
structure RepData where
  repNumber : ℕ
  startTime : ℚ
  endTime : ℚ
  duration : ℚ
  peakVelocity : JNum
  meanVelocity : JNum
  peakHeight : JNum
  lockoutTime : ℚ
  phases : List RepPhase
  jointAngles : RepJointAngles
  power : JNum
  hand : Hand
deriving DecidableEq, Repr

/-- `SetData`. -/
structure SetData where
  setNumber : ℕ
  startTime : ℚ
  endTime : ℚ
  duration : ℚ
  hand : Hand
  reps : List RepData
  totalReps : ℕ
  averageVelocity : JNum
  peakVelocity : JNum
  velocityDropoff : JNum
  averagePower : JNum
  fatigueFactor : JNum
  kettlebellWeight : ℚ
deriving DecidableEq, Repr

/-- `FatigueAlert.type`. -/
inductive AlertType where
  | velocityDrop
  | formDegradation
  | powerDrop
deriving DecidableEq, Repr

/-- `FatigueAlert.severity`. -/
inductive Severity where
  | warning
  | critical
deriving DecidableEq, Repr

/-- `FatigueAlert` (the human-readable `message` string is omitted from the
embedding; it is a formatting of `velocityDropPercent`/`powerDrop` with no
effect on any other state). -/
structure FatigueAlert where
  timestamp : ℚ
  setNumber : ℕ
  repNumber : ℕ
  type : AlertType
  severity : Severity
  velocityDropPercent : Option JNum
deriving DecidableEq, Repr

/-- `SnatchDetectorConfig.velocityThresholds`. -/
structure VelocityThresholds where
  backswingMin : ℚ
  pullMin : ℚ
  lockoutMax : ℚ
deriving DecidableEq, Repr

/-- `SnatchDetectorConfig.positionThresholds`. -/
structure PositionThresholds where
  backswingHeightRatio : ℚ
  lockoutHeightRatio : ℚ
deriving DecidableEq, Repr

/-- `SnatchDetectorConfig.fatigueThresholds`. -/
structure FatigueThresholds where
  velocityDropWarning : ℚ
  velocityDropCritical : ℚ
  powerDropWarning : ℚ
  powerDropCritical : ℚ
deriving DecidableEq, Repr

/-- `SnatchDetectorConfig.setDetection` (`minRepsForSet` is a count). -/
structure SetDetection where
  maxRepGap : ℚ
  minRepsForSet : ℕ
deriving DecidableEq, Repr

/-- `SnatchDetectorConfig`. -/
structure SnatchDetectorConfig where
  kettlebellWeight : ℚ
  velocityThresholds : VelocityThresholds
  positionThresholds : PositionThresholds
  fatigueThresholds : FatigueThresholds
  setDetection : SetDetection
deriving DecidableEq, Repr

/-- `DEFAULT_CONFIG`. -/
def DEFAULT_CONFIG : SnatchDetectorConfig :=
  { kettlebellWeight := 16
    velocityThresholds := { backswingMin := -(15/100), pullMin := 2/10, lockoutMax := 5/100 }
    positionThresholds := { backswingHeightRatio := 7/10, lockoutHeightRatio := 3/10 }
    fatigueThresholds :=
      { velocityDropWarning := 15, velocityDropCritical := 25
        powerDropWarning := 20, powerDropCritical := 35 }
    setDetection := { maxRepGap := 5000, minRepsForSet := 1 } }

/-- The part of a `PoseFrame` that `SnatchRepDetector.processFrame` reads:
`timestamp`, `wristPosition.y`, `wristPosition.velocityY`, `jointAngles`,
`shoulderHeight` and `hipHeight` (`wristSpeed` is destructured but unused). -/
structure PoseFrame where
  timestamp : ℚ
  wristY : ℚ
  wristVelocityY : ℚ
  jointAngles : JointAngles
  shoulderHeight : ℚ
  hipHeight : ℚ
deriving DecidableEq, Repr

/-- The mutable fields of a `SnatchRepDetector` instance. -/
structure DetectorState where
  config : SnatchDetectorConfig
  currentPhase : SnatchPhase
  phaseStartTime : ℚ
  phaseHistory : List PhaseInterval
  repInProgress : Bool
  currentRepStartTime : ℚ
  velocityHistory : List (ℚ × ℚ)
  heightHistory : List (ℚ × ℚ)
  angleHistory : List (ℚ × JointAngles)
  currentSetStartTime : ℚ
  currentSetReps : List RepData
  lastRepEndTime : ℚ
  sessionStartTime : ℚ
  sets : List SetData
  fatigueAlerts : List FatigueAlert
  baselineVelocities : List JNum
  baselinePowers : List JNum
  velocityFilter : KalmanFilter1D
  isActive : Bool
  currentHand : Hand
  setCounter : ℕ
  repCounter : ℕ
deriving DecidableEq, Repr

/-- The events one detector call delivers to its registered callbacks, in
order: phase changes, finalized reps, finalized sets, fatigue alerts. -/
structure DetOutput where
  phases : List SnatchPhase
  reps : List RepData
  sets : List SetData
  alerts : List FatigueAlert
deriving DecidableEq, Repr

/-- No events. -/
def noOutput : DetOutput := ⟨[], [], [], []⟩

/-- Concatenation of two event batches. -/
def DetOutput.app (a b : DetOutput) : DetOutput :=
  ⟨a.phases ++ b.phases, a.reps ++ b.reps, a.sets ++ b.sets, a.alerts ++ b.alerts⟩

/-- The state built by the `SnatchRepDetector` constructor: default-merged
config, a velocity filter with `processNoise 0.1`, `measurementNoise 0.2`
and default initial variances, everything else zero/empty/idle. -/
def initState (cfg : SnatchDetectorConfig) : DetectorState :=
  { config := cfg
    currentPhase := .idle
    phaseStartTime := 0
    phaseHistory := []
    repInProgress := false
    currentRepStartTime := 0
    velocityHistory := []
    heightHistory := []
    angleHistory := []
    currentSetStartTime := 0
    currentSetReps := []
    lastRepEndTime := 0
    sessionStartTime := 0
    sets := []
    fatigueAlerts := []
    baselineVelocities := []
    baselinePowers := []
    velocityFilter :=
      { config :=
          { processNoise := 1/10, measurementNoise := 2/10
            initialPositionVariance := 1, initialVelocityVariance := 1 }
        state :=
          { position := 0, velocity := 0, positionVariance := 1
            velocityVariance := 1, covariance := 0 }
        lastTimestamp := none }
    isActive := false
    currentHand := .right
    setCounter := 0
    repCounter := 0 }

/-! ## Detector operations -/

/-- `SnatchRepDetector.calculatePower(peakVelocity, meanVelocity, duration)`:
`h = meanVelocity·(duration/1000)·0.5`, `P = (m·g·|h| + 0.5·m·v²)/(duration/1000)`,
rounded with `Math.round`. -/
def calculatePower (cfg : SnatchDetectorConfig) (peakVelocity meanVelocity : JNum)
    (duration : ℚ) : JNum :=
  let mass := cfg.kettlebellWeight
  let g : ℚ := 981/100
  let estimatedHeight := jmul (jmul meanVelocity (num (duration / 1000))) (num (1/2))
  let potentialWork := jmul (num (mass * g)) (jabs estimatedHeight)
  let kineticWork := jmul (num ((1/2) * mass)) (jmul peakVelocity peakVelocity)
  let totalWork := jadd potentialWork kineticWork
  let power := jdiv totalWork (num (duration / 1000))
  jround power

/-- `SnatchRepDetector.checkFatigue(rep)`: returns the fatigue alerts the
call emits (the caller appends them to `fatigueAlerts` and notifies the
fatigue callbacks).  Early return when fewer than 3 baseline samples. -/
def checkFatigue (st : DetectorState) (rep : RepData) : List FatigueAlert :=
  if st.baselineVelocities.length < 3 then []
  else
    let baselineVel := jdiv (jsum st.baselineVelocities) (num st.baselineVelocities.length)
    let baselinePower := jdiv (jsum st.baselinePowers) (num st.baselinePowers.length)
    let velocityDrop := jmul (jdiv (jsub baselineVel rep.peakVelocity) baselineVel) (num 100)
    let powerDrop := jmul (jdiv (jsub baselinePower rep.power) baselinePower) (num 100)
    let ft := st.config.fatigueThresholds
    let velAlerts : List FatigueAlert :=
      if jge velocityDrop (num ft.velocityDropCritical) then
        [⟨rep.endTime, st.setCounter + 1, rep.repNumber, .velocityDrop, .critical,
          some velocityDrop⟩]
      else if jge velocityDrop (num ft.velocityDropWarning) then
        [⟨rep.endTime, st.setCounter + 1, rep.repNumber, .velocityDrop, .warning,
          some velocityDrop⟩]
      else []
    let powAlerts : List FatigueAlert :=
      if jge powerDrop (num ft.powerDropCritical) then
        [⟨rep.endTime, st.setCounter + 1, rep.repNumber, .powerDrop, .critical, none⟩]
      else if jge powerDrop (num ft.powerDropWarning) then
        [⟨rep.endTime, st.setCounter + 1, rep.repNumber, .powerDrop, .warning, none⟩]
      else []
    velAlerts ++ powAlerts

/-- The hand-dependent shoulder-abduction angle selection. -/
def shoulderAbductionOf (hand : Hand) (a : JointAngles) : ℚ :=
  match hand with
  | .left => a.leftShoulderAbduction
  | .right => a.rightShoulderAbduction

/-- The hand-dependent elbow angle selection. -/
def elbowOf (hand : Hand) (a : JointAngles) : ℚ :=
  match hand with
  | .left => a.leftElbow
  | .right => a.rightElbow

/-- The hand-dependent hip angle selection. -/
def hipOf (hand : Hand) (a : JointAngles) : ℚ :=
  match hand with
  | .left => a.leftHip
  | .right => a.rightHip

/-- `SnatchRepDetector.finalizeRep(timestamp)`: builds the `RepData` from the
buffered histories, bumps `repCounter`, appends to the current set, runs
`checkFatigue` (before the baseline push), pushes the first-3 baseline
samples, clears the in-progress flag and phase history.  Returns the new
state, the emitted `RepData` and the emitted alerts. -/
def finalizeRep (st : DetectorState) (timestamp : ℚ) :
    DetectorState × RepData × List FatigueAlert :=
  let repStartTime := st.currentRepStartTime
  let repEndTime := timestamp
  let duration := repEndTime - repStartTime
  let repVelocities := st.velocityHistory.filter
    (fun v => decide (repStartTime ≤ v.1 ∧ v.1 ≤ repEndTime))
  let repHeights := st.heightHistory.filter
    (fun h => decide (repStartTime ≤ h.1 ∧ h.1 ≤ repEndTime))
  let repAngles := st.angleHistory.filter
    (fun a => decide (repStartTime ≤ a.1 ∧ a.1 ≤ repEndTime))
  let peakVelocity := jmaxListQ (repVelocities.map Prod.snd)
  let meanVelocity :=
    jdiv (num (repVelocities.map Prod.snd).sum) (num repVelocities.length)
  let peakHeight := jmaxListQ (repHeights.map Prod.snd)
  let lockoutPhase := st.phaseHistory.find? (fun p => p.phase = SnatchPhase.lockout)
  let lockoutTime := match lockoutPhase with
    | some p => p.endTime - p.startTime
    | none => 0
  let repJointAngles : RepJointAngles :=
    { maxShoulderAbduction :=
        jmaxListQ (repAngles.map (fun a => shoulderAbductionOf st.currentHand a.2))
      maxElbowAngle := jmaxListQ (repAngles.map (fun a => elbowOf st.currentHand a.2))
      minHipAngle := jminListQ (repAngles.map (fun a => hipOf st.currentHand a.2))
      lockoutShoulderAngle :=
        match lockoutPhase, repAngles.getLast? with
        | some _, some a => shoulderAbductionOf st.currentHand a.2
        | _, _ => 0 }
  let power := calculatePower st.config peakVelocity meanVelocity duration
  let repData : RepData :=
    { repNumber := st.repCounter + 1
      startTime := repStartTime
      endTime := repEndTime
      duration := duration
      peakVelocity := peakVelocity
      meanVelocity := meanVelocity
      peakHeight := peakHeight
      lockoutTime := lockoutTime
      phases := st.phaseHistory.map
        (fun p => ⟨p.phase, p.startTime, p.endTime, p.endTime - p.startTime⟩)
      jointAngles := repJointAngles
      power := power
      hand := st.currentHand }
  let alerts := checkFatigue st repData
  let pushBaseline := st.baselineVelocities.length < 3
  ({ st with
      repCounter := st.repCounter + 1
      currentSetReps := st.currentSetReps ++ [repData]
      lastRepEndTime := repEndTime
      fatigueAlerts := st.fatigueAlerts ++ alerts
      baselineVelocities :=
        if pushBaseline then st.baselineVelocities ++ [peakVelocity]
        else st.baselineVelocities
      baselinePowers :=
        if pushBaseline then st.baselinePowers ++ [power] else st.baselinePowers
      repInProgress := false
      phaseHistory := [] },
   repData, alerts)

/-- `SnatchRepDetector.finalizeSet()`: silently discards a below-minimum
buffer (clearing only `currentSetReps`), otherwise computes the set metrics,
appends the `SetData`, clears the buffer and both baseline windows, and
returns the emitted `SetData`. -/
def finalizeSet (st : DetectorState) : DetectorState × Option SetData :=
  if st.currentSetReps.length < st.config.setDetection.minRepsForSet then
    ({ st with currentSetReps := [] }, none)
  else
    let reps := st.currentSetReps
    let endTime := st.lastRepEndTime
    let velocities := reps.map RepData.peakVelocity
    let powers := reps.map RepData.power
    let avgVelocity := jdiv (jsum velocities) (num velocities.length)
    let peakVel := jmaxList velocities
    let avgPower := jdiv (jsum powers) (num powers.length)
    let firstRepVel := velocities.headD nan
    let lastRepVel := velocities.getLastD nan
    let velocityDropoff := jmul (jdiv (jsub firstRepVel lastRepVel) firstRepVel) (num 100)
    let fatigueFactor :=
      jmin (num 1) (jmax (num 0)
        (jadd (jdiv velocityDropoff (num 50))
          (jdiv (jdiv (jsub (powers.headD nan) (powers.getLastD nan)) (powers.headD nan))
            (num 2))))
    let setData : SetData :=
      { setNumber := st.setCounter + 1
        startTime := st.currentSetStartTime
        endTime := endTime
        duration := endTime - st.currentSetStartTime
        hand := st.currentHand
        reps := reps
        totalReps := reps.length
        averageVelocity := avgVelocity
        peakVelocity := peakVel
        velocityDropoff := velocityDropoff
        averagePower := avgPower
        fatigueFactor := fatigueFactor
        kettlebellWeight := st.config.kettlebellWeight }
    ({ st with
        setCounter := st.setCounter + 1
        sets := st.sets ++ [setData]
        currentSetReps := []
        baselineVelocities := []
        baselinePowers := [] },
     some setData)

/-- `SnatchRepDetector.getPeakVelocityInPhase()`: max filtered velocity
recorded since the current phase started (0 when no samples). -/
def getPeakVelocityInPhase (st : DetectorState) : ℚ :=
  let phaseVelocities := st.velocityHistory.filter
    (fun v => decide (st.phaseStartTime ≤ v.1))
  match phaseVelocities with
  | [] => 0
  | v :: vs => (vs.map Prod.snd).foldl max v.2

/-- `SnatchRepDetector.getPhaseDuration(currentTime)`. -/
def getPhaseDuration (st : DetectorState) (currentTime : ℚ) : ℚ :=
  currentTime - st.phaseStartTime

/-- `SnatchRepDetector.detectPhase(velocity, heightRatio, angles, timestamp)`:
the phase transition switch.  `heightRatio` is a JS number (it is a division
that can degenerate); the filtered velocity is finite.  The source also
selects the elbow and hip angles for the current hand, but the switch never
reads them. -/
def detectPhase (st : DetectorState) (velocity : ℚ) (heightRatio : JNum)
    (angles : JointAngles) (timestamp : ℚ) : SnatchPhase :=
  let vt := st.config.velocityThresholds
  let pt := st.config.positionThresholds
  let shoulderAngle := shoulderAbductionOf st.currentHand angles
  match st.currentPhase with
  | .idle =>
      if velocity < vt.backswingMin ∧ jlt heightRatio (num pt.backswingHeightRatio) then
        .backswing
      else .idle
  | .backswing =>
      if 0 < velocity ∧ jlt heightRatio (num pt.backswingHeightRatio) then .hike
      else .backswing
  | .hike =>
      if vt.pullMin < velocity then .pull
      else if velocity < vt.backswingMin then .backswing
      else .hike
  | .pull =>
      if jgt heightRatio (num (pt.lockoutHeightRatio * (7/10))) ∧
          velocity < getPeakVelocityInPhase st * (1/2) then .punch
      else .pull
  | .punch =>
      if |velocity| < vt.lockoutMax ∧ jgt heightRatio (num pt.lockoutHeightRatio) ∧
          150 < shoulderAngle then .lockout
      else .punch
  | .lockout =>
      if velocity < -(1/10) then .drop else .lockout
  | .drop =>
      if jlt heightRatio (num (pt.lockoutHeightRatio * (7/10))) then .ret else .drop
  | .ret =>
      if velocity < vt.backswingMin ∧ jlt heightRatio (num pt.backswingHeightRatio) then
        .backswing
      else if |velocity| < 5/100 ∧ 500 < getPhaseDuration st timestamp then .idle
      else .ret

/-- `SnatchRepDetector.onPhaseChange(oldPhase, newPhase, timestamp)`: record
the closed phase interval, enter the new phase, notify phase callbacks, and
run the rep start / completion / abandonment logic. -/
def onPhaseChange (st : DetectorState) (oldPhase newPhase : SnatchPhase)
    (timestamp : ℚ) : DetectorState × DetOutput :=
  let phaseHistory1 :=
    if 0 < st.phaseStartTime then
      st.phaseHistory ++ [⟨oldPhase, st.phaseStartTime, timestamp⟩]
    else st.phaseHistory
  let st1 := { st with
    phaseHistory := phaseHistory1
    currentPhase := newPhase
    phaseStartTime := timestamp }
  if newPhase = SnatchPhase.backswing ∧ st1.repInProgress = false then
    ({ st1 with
        repInProgress := true
        currentRepStartTime := timestamp
        phaseHistory := [] },
     ⟨[newPhase], [], [], []⟩)
  else if oldPhase = SnatchPhase.lockout ∧ newPhase = SnatchPhase.drop then
    if st1.repInProgress then
      let fr := finalizeRep st1 timestamp
      (fr.1, ⟨[newPhase], [fr.2.1], [], fr.2.2⟩)
    else (st1, ⟨[newPhase], [], [], []⟩)
  else if newPhase = SnatchPhase.idle ∧ st1.repInProgress then
    ({ st1 with repInProgress := false, phaseHistory := [] },
     ⟨[newPhase], [], [], []⟩)
  else (st1, ⟨[newPhase], [], [], []⟩)

/-- The frame-ingestion prefix of `SnatchRepDetector.processFrame`: filter
the (negated) wrist vertical velocity, compute the normalized height and the
height ratio, push the three history entries and evict the oldest when the
300-entry bound is exceeded.  Returns the updated state, the filtered
vertical velocity and the height ratio. -/
def ingest (st : DetectorState) (f : PoseFrame) : DetectorState × ℚ × JNum :=
  let u := st.velocityFilter.update (-f.wristVelocityY) f.timestamp
  let verticalVelocity := u.2.velocity
  let normalizedHeight := 1 - f.wristY
  let heightRatio :=
    jdiv (num (f.hipHeight - f.wristY)) (num (f.hipHeight - f.shoulderHeight))
  let vh := st.velocityHistory ++ [(f.timestamp, verticalVelocity)]
  let hh := st.heightHistory ++ [(f.timestamp, normalizedHeight)]
  let ah := st.angleHistory ++ [(f.timestamp, f.jointAngles)]
  ({ st with
      velocityFilter := u.1
      velocityHistory := if 300 < vh.length then vh.drop 1 else vh
      heightHistory := if 300 < vh.length then hh.drop 1 else hh
      angleHistory := if 300 < vh.length then ah.drop 1 else ah },
   verticalVelocity, heightRatio)

/-- The phase-transition dispatch inside `processFrame`: `onPhaseChange` is
invoked exactly when the detected phase differs from the current one. -/
def phaseStep (st : DetectorState) (np : SnatchPhase) (t : ℚ) :
    DetectorState × DetOutput :=
  if np ≠ st.currentPhase then onPhaseChange st st.currentPhase np t
  else (st, noOutput)

/-- The set-gap check at the end of `processFrame`: finalize the current set
(and restart the set clock) when a non-empty buffer has been idle past
`maxRepGap`. -/
def gapCheck (st : DetectorState) (t : ℚ) : DetectorState × Option SetData :=
  if 0 < st.currentSetReps.length ∧
      st.config.setDetection.maxRepGap < t - st.lastRepEndTime ∧
      st.currentPhase = SnatchPhase.idle then
    let fs := finalizeSet st
    ({ fs.1 with currentSetStartTime := t }, fs.2)
  else (st, none)

/-- `SnatchRepDetector.processFrame(frame)`: no-op while inactive; otherwise
ingest the frame, detect the phase, dispatch the phase change, and run the
set-gap check. -/
def processFrame (st : DetectorState) (f : PoseFrame) : DetectorState × DetOutput :=
  if st.isActive = false then (st, noOutput)
  else
    let ig := ingest st f
    let np := detectPhase ig.1 ig.2.1 ig.2.2 f.jointAngles f.timestamp
    let pc := phaseStep ig.1 np f.timestamp
    let gc := gapCheck pc.1 f.timestamp
    (gc.1, ⟨pc.2.phases, pc.2.reps, pc.2.sets ++ gc.2.toList, pc.2.alerts⟩)

/-- `SnatchRepDetector.reset()`: clears the phase/rep buffers and the
velocity filter, leaving all session accumulators untouched. -/
def resetDetector (st : DetectorState) : DetectorState :=
  { st with
      currentPhase := .idle
      phaseStartTime := 0
      phaseHistory := []
      repInProgress := false
      currentRepStartTime := 0
      velocityHistory := []
      heightHistory := []
      angleHistory := []
      velocityFilter := st.velocityFilter.reset 0 }

/-- `SnatchRepDetector.start(hand)` at clock value `now`
(`performance.now()`). -/
def startDetector (st : DetectorState) (hand : Hand) (now : ℚ) : DetectorState :=
  resetDetector { st with
    isActive := true
    currentHand := hand
    sessionStartTime := now
    currentSetStartTime := now }

/-- `SessionData` (the `sessionId` string is omitted). -/
structure SessionData where
  startTime : ℚ
  endTime : ℚ
  duration : ℚ
  kettlebellWeight : ℚ
  sets : List SetData
  totalReps : ℕ
  totalSets : ℕ
  averageVelocity : JNum
  peakVelocity : JNum
  averagePower : JNum
  totalWork : JNum
  fatigueAlerts : List FatigueAlert
deriving DecidableEq, Repr

/-- `SnatchRepDetector.getSessionData(endTime)`. -/
def getSessionData (st : DetectorState) (endTime : ℚ) : SessionData :=
  let allReps := st.sets.flatMap SetData.reps
  let allVelocities := allReps.map RepData.peakVelocity
  let allPowers := allReps.map RepData.power
  { startTime := st.sessionStartTime
    endTime := endTime
    duration := endTime - st.sessionStartTime
    kettlebellWeight := st.config.kettlebellWeight
    sets := st.sets
    totalReps := allReps.length
    totalSets := st.sets.length
    averageVelocity :=
      if allVelocities.length = 0 then num 0
      else jdiv (jsum allVelocities) (num allVelocities.length)
    peakVelocity := if allVelocities.length = 0 then num 0 else jmaxList allVelocities
    averagePower :=
      if allPowers.length = 0 then num 0
      else jdiv (jsum allPowers) (num allPowers.length)
    totalWork :=
      allReps.foldl (fun acc r => jadd acc (jmul r.power (num (r.duration / 1000))))
        (num 0)
    fatigueAlerts := st.fatigueAlerts }

/-- `SnatchRepDetector.stop()` at clock value `now`: deactivate, finalize the
current set when it meets the minimum, and take the session snapshot. -/
def stopDetector (st : DetectorState) (now : ℚ) :
    DetectorState × Option SetData × SessionData :=
  let st1 := { st with isActive := false }
  let fs :=
    if st1.config.setDetection.minRepsForSet ≤ st1.currentSetReps.length then
      finalizeSet st1
    else (st1, none)
  (fs.1, fs.2, getSessionData fs.1 now)

/-- `SnatchRepDetector.switchHand(hand)` at clock value `now`. -/
def switchHand (st : DetectorState) (hand : Hand) (now : ℚ) :
    DetectorState × Option SetData :=
  let fs := if 0 < st.currentSetReps.length then finalizeSet st else (st, none)
  ({ fs.1 with currentHand := hand, currentSetStartTime := now }, fs.2)

/-- `SnatchRepDetector.setKettlebellWeight(weight)`. -/
def setKettlebellWeight (st : DetectorState) (weight : ℚ) : DetectorState :=
  { st with config := { st.config with kettlebellWeight := weight } }

/-- `SnatchRepDetector.pause()`. -/
def pauseDetector (st : DetectorState) : DetectorState := { st with isActive := false }

/-- `SnatchRepDetector.resume()`. -/
def resumeDetector (st : DetectorState) : DetectorState := { st with isActive := true }

/-! ## Sessions as operation sequences -/

/-- One public call on a detector instance. -/
inductive DetOp where
  | frame (f : PoseFrame)
  | start (hand : Hand) (now : ℚ)
  | stop (now : ℚ)
  | pause
  | resume
  | reset
  | switchHand (hand : Hand) (now : ℚ)
  | setWeight (w : ℚ)
deriving DecidableEq, Repr

/-- The state/event effect of one public call. -/
def stepD (st : DetectorState) : DetOp → DetectorState × DetOutput
  | .frame f => processFrame st f
  | .start h now => (startDetector st h now, noOutput)
  | .stop now =>
      let r := stopDetector st now
      (r.1, ⟨[], [], r.2.1.toList, []⟩)
  | .pause => (pauseDetector st, noOutput)
  | .resume => (resumeDetector st, noOutput)
  | .reset => (resetDetector st, noOutput)
  | .switchHand h now =>
      let r := switchHand st h now
      (r.1, ⟨[], [], r.2.toList, []⟩)
  | .setWeight w => (setKettlebellWeight st w, noOutput)

/-- Run a sequence of calls, returning the final state. -/
def runD (st : DetectorState) : List DetOp → DetectorState
  | [] => st
  | op :: ops => runD (stepD st op).1 ops

/-- Run a sequence of calls, returning the final state and all events
delivered to callbacks, in order. -/
def runO (st : DetectorState) : List DetOp → DetectorState × DetOutput
  | [] => (st, noOutput)
  | op :: ops =>
      let r1 := stepD st op
      let r2 := runO r1.1 ops
      (r2.1, r1.2.app r2.2)

/-! ## Claims about the phase machine and rep lifecycle -/

/-- C1: on any phase transition (`newPhase ≠ currentPhase`), a repetition is
opened exactly when the machine transitions into `Backswing` with no
repetition open; the open repetition is finalized — a `RepData` is emitted —
exactly at a `Lockout→Drop` transition; and it is abandoned (the in-progress
flag is dropped with no `RepData` emitted) exactly when the machine enters
`Idle` while a repetition is open. -/
theorem phase_machine_rep_lifecycle (st : DetectorState) (np : SnatchPhase) (t : ℚ)
    (_hne : np ≠ st.currentPhase) :
    ((st.repInProgress = false ∧
        (onPhaseChange st st.currentPhase np t).1.repInProgress = true) ↔
      (np = SnatchPhase.backswing ∧ st.repInProgress = false)) ∧
    (((onPhaseChange st st.currentPhase np t).2.reps ≠ []) ↔
      (st.currentPhase = SnatchPhase.lockout ∧ np = SnatchPhase.drop ∧
        st.repInProgress = true)) ∧
    ((st.repInProgress = true ∧
        (onPhaseChange st st.currentPhase np t).1.repInProgress = false ∧
        (onPhaseChange st st.currentPhase np t).2.reps = []) ↔
      (np = SnatchPhase.idle ∧ st.repInProgress = true)) := by
  simp only [onPhaseChange]
  split_ifs with h0 h1 h2 h3 <;> simp_all [finalizeRep]

/-- The concrete state used by the C1 witness: lockout phase with an open
repetition. -/
def c1state : DetectorState :=
  { initState DEFAULT_CONFIG with
      currentPhase := SnatchPhase.lockout, repInProgress := true }

/-- Witness for C1 at a concrete transition: a `Lockout→Drop` step with an
open repetition. -/
theorem phase_machine_rep_lifecycle_witness :
    ((c1state.repInProgress = false ∧
        (onPhaseChange c1state c1state.currentPhase SnatchPhase.drop
          100).1.repInProgress = true) ↔
      (SnatchPhase.drop = SnatchPhase.backswing ∧ c1state.repInProgress = false)) ∧
    (((onPhaseChange c1state c1state.currentPhase SnatchPhase.drop 100).2.reps ≠ []) ↔
      (c1state.currentPhase = SnatchPhase.lockout ∧
        SnatchPhase.drop = SnatchPhase.drop ∧ c1state.repInProgress = true)) ∧
    ((c1state.repInProgress = true ∧
        (onPhaseChange c1state c1state.currentPhase SnatchPhase.drop
          100).1.repInProgress = false ∧
        (onPhaseChange c1state c1state.currentPhase SnatchPhase.drop 100).2.reps = []) ↔
      (SnatchPhase.drop = SnatchPhase.idle ∧ c1state.repInProgress = true)) :=
  phase_machine_rep_lifecycle c1state SnatchPhase.drop 100 (by decide)

/-- C7: a repetition finalized while the baseline window is not yet full
(fewer than 3 samples) emits no fatigue alert and contributes its peak
velocity as the next baseline sample; conversely, any finalization that
emits an alert happened with a fully populated (3-sample) baseline. -/
theorem fatigue_baseline_gating (st : DetectorState) (t : ℚ) :
    (st.baselineVelocities.length < 3 →
      (finalizeRep st t).2.2 = [] ∧
      (finalizeRep st t).1.baselineVelocities
        = st.baselineVelocities ++ [(finalizeRep st t).2.1.peakVelocity]) ∧
    ((finalizeRep st t).2.2 ≠ [] → 3 ≤ st.baselineVelocities.length) := by
  constructor
  · intro hlen
    constructor
    · simp [finalizeRep, checkFatigue, hlen]
    · simp [finalizeRep, checkFatigue, hlen]
  · intro halerts
    by_contra hlt
    push_neg at hlt
    exact halerts (by simp [finalizeRep, checkFatigue, hlt])

/-- Witness for C7: with an empty baseline window, finalizing a repetition
emits no alert and pushes one baseline sample. -/
theorem fatigue_baseline_gating_witness :
    (finalizeRep (initState DEFAULT_CONFIG) 1000).2.2 = [] ∧
    (finalizeRep (initState DEFAULT_CONFIG) 1000).1.baselineVelocities
      = (initState DEFAULT_CONFIG).baselineVelocities ++
        [(finalizeRep (initState DEFAULT_CONFIG) 1000).2.1.peakVelocity] :=
  (fatigue_baseline_gating (initState DEFAULT_CONFIG) 1000).1 (by decide)

/-- C10: `start()` does not clear accumulated session state — the finalized
set list, the fatigue-alert log, the set counter, the rep counter and the
buffered unfinalized repetitions are retained unchanged — and a snapshot
taken by a subsequent `stop()` still begins with the earlier sets and
carries the earlier alert log. -/
theorem start_retains_session_state (st : DetectorState) (h : Hand) (now now2 : ℚ) :
    (startDetector st h now).sets = st.sets ∧
    (startDetector st h now).fatigueAlerts = st.fatigueAlerts ∧
    (startDetector st h now).setCounter = st.setCounter ∧
    (startDetector st h now).repCounter = st.repCounter ∧
    (startDetector st h now).currentSetReps = st.currentSetReps ∧
    (∃ L, (stopDetector (startDetector st h now) now2).2.2.sets = st.sets ++ L) ∧
    (stopDetector (startDetector st h now) now2).2.2.fatigueAlerts
      = st.fatigueAlerts := by
  refine ⟨rfl, rfl, rfl, rfl, rfl, ?_, ?_⟩
  · simp only [stopDetector, getSessionData, startDetector, resetDetector]
    split_ifs with hg
    · simp only [finalizeSet]
      split_ifs with hd
      · exact ⟨[], by simp⟩
      · exact ⟨_, rfl⟩
    · exact ⟨[], by simp⟩
  · simp only [stopDetector, getSessionData, startDetector, resetDetector]
    split_ifs with hg
    · simp only [finalizeSet]
      split_ifs with hd <;> rfl
    · rfl

/-! ## Claims about degenerate baselines and set metrics -/

/-- A minimal `RepData` literal for concrete evaluations. -/
def mkRep (n : ℕ) (pv pw : JNum) : RepData :=
  { repNumber := n
    startTime := 0
    endTime := 0
    duration := 0
    peakVelocity := pv
    meanVelocity := num 0
    peakHeight := num 0
    lockoutTime := 0
    phases := []
    jointAngles := ⟨num 0, num 0, num 0, 0⟩
    power := pw
    hand := .right }

/-- State for C3: a two-rep buffer whose first rep has peak velocity 0. -/
def c3state : DetectorState :=
  { initState DEFAULT_CONFIG with
      currentSetReps := [mkRep 1 (num 0) (num 10), mkRep 2 (num 1) (num 10)] }

/-- C3 (failing evaluation): with a zero first-rep peak velocity the set
finalization divides by zero and stores `velocityDropoff = -Infinity` in the
emitted and accumulated `SetData` — no 0% special case exists. -/
theorem zero_baseline_stores_infinity :
    ((finalizeSet c3state).2.map SetData.velocityDropoff) = some JNum.ninf ∧
    (finalizeSet c3state).1.sets.map SetData.velocityDropoff = [JNum.ninf] := by
  constructor <;>
    norm_num [finalizeSet, c3state, mkRep, initState, DEFAULT_CONFIG, jsum, jdiv,
      jsub, jneg, jadd, jmul, jmaxList, jmax, List.headD, List.getLastD]

/-- State for C4: all peak velocities 1, all powers 0. -/
def c4state : DetectorState :=
  { initState DEFAULT_CONFIG with
      currentSetReps := [mkRep 1 (num 1) (num 0), mkRep 2 (num 1) (num 0)] }

/-- C4 (failing evaluation): with non-negative inputs whose first-rep power
is 0, the stored `fatigueFactor` is `NaN` — in particular it is not a real
number in `[0, 1]`. -/
theorem fatigue_factor_nan_on_zero_power :
    ((finalizeSet c4state).2.map SetData.fatigueFactor) = some JNum.nan ∧
    ∀ q : ℚ, ((finalizeSet c4state).2.map SetData.fatigueFactor) ≠ some (JNum.num q) := by
  have h0 : ((finalizeSet c4state).2.map SetData.fatigueFactor) = some JNum.nan := by
    norm_num [finalizeSet, c4state, mkRep, initState, DEFAULT_CONFIG, jsum, jdiv,
      jsub, jneg, jadd, jmul, jmin, jmax, List.headD, List.getLastD]
  refine ⟨h0, fun q h => ?_⟩
  rw [h0] at h
  exact JNum.noConfusion (Option.some.inj h)

/-- State for C8's counterexample: one buffered rep (below a 2-rep minimum)
with one collected baseline sample — exactly the state after the first
repetition of a session configured with `minRepsForSet = 2`. -/
def c8state : DetectorState :=
  { initState { DEFAULT_CONFIG with
        setDetection := { maxRepGap := 5000, minRepsForSet := 2 } } with
      currentSetReps := [mkRep 1 (num 1) (num 100)]
      baselineVelocities := [num 1]
      baselinePowers := [num 100] }

/-- C8 counterexample: the silent discard of a below-minimum set is a
set-finalization event that leaves the baseline windows non-empty — the
sample collected in the discarded set persists. -/
theorem baseline_survives_silent_discard :
    (finalizeSet c8state).2 = none ∧
    (finalizeSet c8state).1.currentSetReps = [] ∧
    (finalizeSet c8state).1.baselineVelocities = [num 1] ∧
    (finalizeSet c8state).1.baselineVelocities ≠ [] := by
  refine ⟨rfl, rfl, rfl, fun h => ?_⟩
  have h0 : (finalizeSet c8state).1.baselineVelocities = [num 1] := rfl
  rw [h0] at h
  exact List.noConfusion h

/-- C8 amended: after every set finalization that emits a `SetData`
(including one forced by a hand switch) both baseline windows are empty;
a silent discard of a below-minimum set clears only the repetition buffer
and leaves both baseline windows unchanged. -/
theorem baseline_cleared_on_emitting_finalization (st : DetectorState) :
    (∀ sd, (finalizeSet st).2 = some sd →
      (finalizeSet st).1.baselineVelocities = [] ∧
      (finalizeSet st).1.baselinePowers = []) ∧
    ((finalizeSet st).2 = none →
      (finalizeSet st).1.baselineVelocities = st.baselineVelocities ∧
      (finalizeSet st).1.baselinePowers = st.baselinePowers ∧
      (finalizeSet st).1.currentSetReps = []) := by
  constructor
  · intro sd h
    by_cases hd : st.currentSetReps.length < st.config.setDetection.minRepsForSet
    · unfold finalizeSet at h
      rw [if_pos hd] at h
      simp at h
    · unfold finalizeSet
      rw [if_neg hd]
      exact ⟨rfl, rfl⟩
  · intro h
    by_cases hd : st.currentSetReps.length < st.config.setDetection.minRepsForSet
    · unfold finalizeSet
      rw [if_pos hd]
      exact ⟨rfl, rfl, rfl⟩
    · unfold finalizeSet at h
      rw [if_neg hd] at h
      simp at h

/-- State for the C8 witness: a one-rep buffer meeting the default 1-rep
minimum, with one baseline sample collected. -/
def c8good : DetectorState :=
  { initState DEFAULT_CONFIG with
      currentSetReps := [mkRep 1 (num 1) (num 100)]
      baselineVelocities := [num 1]
      baselinePowers := [num 100] }

/-- A placeholder `SetData` used only as an `Option.getD` default. -/
def dummySet : SetData :=
  { setNumber := 0, startTime := 0, endTime := 0, duration := 0, hand := .right
    reps := [], totalReps := 0, averageVelocity := num 0, peakVelocity := num 0
    velocityDropoff := num 0, averagePower := num 0, fatigueFactor := num 0
    kettlebellWeight := 0 }

/-- Witness for the amended C8: an emitting finalization clears both
baseline windows. -/
theorem baseline_cleared_on_emitting_finalization_witness :
    (finalizeSet c8good).1.baselineVelocities = [] ∧
    (finalizeSet c8good).1.baselinePowers = [] :=
  (baseline_cleared_on_emitting_finalization c8good).1
    ((finalizeSet c8good).2.getD dummySet) (by rfl)

/-! ## Claims about power estimation -/

/-- C9 counterexample: at mass 16 kg, peak velocity 1, mean velocity 1 and a
1000 ms repetition, the stored power is the integer 86, while the claimed
formula value `(m·g·|h| + 0.5·m·v²)/t` is 86.48 — the source rounds with
`Math.round`, so the stored power differs from the exact formula. -/
theorem power_rounding_counterexample :
    calculatePower DEFAULT_CONFIG (num 1) (num 1) 1000 = JNum.num 86 ∧
    (86 : ℚ) ≠ (16 * (981/100) * |(1:ℚ) * (1000/1000) * (1/2)| +
      (1/2) * 16 * 1 ^ 2) / (1000/1000) := by
  constructor
  · norm_num [calculatePower, DEFAULT_CONFIG, jmul, jabs, jadd, jdiv, jround,
      jroundQ, abs_of_pos, Int.floor_eq_iff]
  · intro hc
    rw [abs_of_nonneg (by norm_num : (0:ℚ) ≤ 1 * (1000/1000) * (1/2))] at hc
    norm_num at hc

/-- C9 amended: for every finite peak velocity, mean velocity and non-zero
duration, the stored power is `Math.round((m·g·|h| + 0.5·m·v_peak²)/t)` —
the spec's formula rounded to the nearest integer watt. -/
theorem power_formula_rounded (cfg : SnatchDetectorConfig) (pv mean dur : ℚ)
    (h : dur ≠ 0) :
    calculatePower cfg (num pv) (num mean) dur =
      JNum.num (jroundQ ((cfg.kettlebellWeight * (981/100) *
          |mean * (dur/1000) * (1/2)| +
          (1/2) * cfg.kettlebellWeight * pv ^ 2) / (dur/1000))) := by
  have hb : dur / 1000 ≠ 0 := by
    intro hc
    exact h (by linarith [(div_eq_zero_iff.mp hc).resolve_right (by norm_num)])
  simp only [calculatePower, jmul, jabs, jadd, jdiv, jround, if_neg hb]
  congr 2
  ring

/-- Witness for the amended C9 at the counterexample's input. -/
theorem power_formula_rounded_witness :
    calculatePower DEFAULT_CONFIG (num 1) (num 1) 1000 =
      JNum.num (jroundQ ((DEFAULT_CONFIG.kettlebellWeight * (981/100) *
          |(1:ℚ) * (1000/1000) * (1/2)| +
          (1/2) * DEFAULT_CONFIG.kettlebellWeight * 1 ^ 2) / (1000/1000))) :=
  power_formula_rounded DEFAULT_CONFIG 1 1 1000 (by norm_num)

/-! ## Run-level invariants: set minimums and rep numbering -/

/-- How the set-relevant state evolves across any single detector call: the
set-detection configuration is untouched, the rep counter never decreases,
the finalized-set list only grows by sets that meet the minimum and whose
repetitions either come from the pre-call buffer or are newly numbered, and
every buffered repetition either was already buffered or is newly numbered. -/
def StepPreserves (st st' : DetectorState) : Prop :=
  st'.config.setDetection = st.config.setDetection ∧
  st.repCounter ≤ st'.repCounter ∧
  (∃ L, st'.sets = st.sets ++ L ∧
    ∀ sd ∈ L, st.config.setDetection.minRepsForSet ≤ sd.reps.length ∧
      ∀ r ∈ sd.reps, r ∈ st.currentSetReps ∨ st.repCounter < r.repNumber) ∧
  (∀ r ∈ st'.currentSetReps, r ∈ st.currentSetReps ∨ st.repCounter < r.repNumber)

theorem stepPreserves_of_eq (st st' : DetectorState)
    (h1 : st'.config = st.config) (h2 : st'.repCounter = st.repCounter)
    (h3 : st'.sets = st.sets) (h4 : st'.currentSetReps = st.currentSetReps) :
    StepPreserves st st' := by
  refine ⟨by rw [h1], by rw [h2], ⟨[], by simp [h3], by simp⟩, ?_⟩
  rw [h4]
  exact fun r hr => Or.inl hr

theorem stepPreserves_refl (st : DetectorState) : StepPreserves st st :=
  stepPreserves_of_eq st st rfl rfl rfl rfl

theorem StepPreserves.trans {a b c : DetectorState}
    (hab : StepPreserves a b) (hbc : StepPreserves b c) : StepPreserves a c := by
  obtain ⟨hc1, hn1, ⟨L1, hs1, hL1⟩, hb1⟩ := hab
  obtain ⟨hc2, hn2, ⟨L2, hs2, hL2⟩, hb2⟩ := hbc
  have lift : ∀ r : RepData,
      (r ∈ b.currentSetReps ∨ b.repCounter < r.repNumber) →
      (r ∈ a.currentSetReps ∨ a.repCounter < r.repNumber) := by
    intro r hr
    rcases hr with hr | hr
    · exact hb1 r hr
    · exact Or.inr (lt_of_le_of_lt hn1 hr)
  refine ⟨hc2.trans hc1, hn1.trans hn2, ⟨L1 ++ L2, ?_, ?_⟩, ?_⟩
  · rw [hs2, hs1, List.append_assoc]
  · intro sd hsd
    rcases List.mem_append.mp hsd with hsd | hsd
    · exact hL1 sd hsd
    · obtain ⟨hmin, hreps⟩ := hL2 sd hsd
      refine ⟨?_, fun r hr => lift r (hreps r hr)⟩
      rw [hc1] at hmin
      exact hmin
  · intro r hr
    exact lift r (hb2 r hr)

theorem finalizeRep_preserves (st : DetectorState) (t : ℚ) :
    StepPreserves st (finalizeRep st t).1 := by
  refine ⟨rfl, Nat.le_succ _, ⟨[], by rw [List.append_nil]; rfl, by simp⟩, ?_⟩
  intro r hr
  have hr2 : r ∈ st.currentSetReps ++ [(finalizeRep st t).2.1] := hr
  rcases List.mem_append.mp hr2 with h | h
  · exact Or.inl h
  · right
    have : r = (finalizeRep st t).2.1 := List.mem_singleton.mp h
    rw [this]
    exact Nat.lt_succ_self _

theorem finalizeSet_preserves (st : DetectorState) :
    StepPreserves st (finalizeSet st).1 := by
  by_cases hd : st.currentSetReps.length < st.config.setDetection.minRepsForSet
  · unfold finalizeSet
    rw [if_pos hd]
    exact ⟨rfl, le_refl _, ⟨[], by simp, by simp⟩, by simp⟩
  · unfold finalizeSet
    rw [if_neg hd]
    refine ⟨rfl, le_refl _, ⟨[_], rfl, ?_⟩, by simp⟩
    intro sd hsd
    rw [List.mem_singleton.mp hsd]
    exact ⟨Nat.le_of_not_lt hd, fun r hr => Or.inl hr⟩

theorem onPhaseChange_preserves (st : DetectorState) (old np : SnatchPhase) (t : ℚ) :
    StepPreserves st (onPhaseChange st old np t).1 := by
  simp only [onPhaseChange]
  split_ifs <;>
    first
      | exact StepPreserves.trans
          (stepPreserves_of_eq st _ rfl rfl rfl rfl) (finalizeRep_preserves _ t)
      | exact stepPreserves_of_eq _ _ rfl rfl rfl rfl

theorem phaseStep_preserves (st : DetectorState) (np : SnatchPhase) (t : ℚ) :
    StepPreserves st (phaseStep st np t).1 := by
  unfold phaseStep
  split_ifs with h
  · exact onPhaseChange_preserves st st.currentPhase np t
  · exact stepPreserves_refl st

theorem gapCheck_preserves (st : DetectorState) (t : ℚ) :
    StepPreserves st (gapCheck st t).1 := by
  unfold gapCheck
  split_ifs with h
  · exact StepPreserves.trans (finalizeSet_preserves st)
      (stepPreserves_of_eq _ _ rfl rfl rfl rfl)
  · exact stepPreserves_refl st

theorem processFrame_preserves (st : DetectorState) (f : PoseFrame) :
    StepPreserves st (processFrame st f).1 := by
  unfold processFrame
  split_ifs with h
  · exact stepPreserves_refl st
  · exact StepPreserves.trans (stepPreserves_of_eq st (ingest st f).1 rfl rfl rfl rfl)
      (StepPreserves.trans (phaseStep_preserves _ _ _) (gapCheck_preserves _ _))

theorem stepD_preserves (st : DetectorState) (op : DetOp) :
    StepPreserves st (stepD st op).1 := by
  cases op with
  | frame f => exact processFrame_preserves st f
  | start h now => exact stepPreserves_of_eq _ _ rfl rfl rfl rfl
  | stop now =>
      show StepPreserves st (stopDetector st now).1
      simp only [stopDetector]
      split_ifs with h
      · exact StepPreserves.trans
          (stepPreserves_of_eq st _ rfl rfl rfl rfl) (finalizeSet_preserves _)
      · exact stepPreserves_of_eq _ _ rfl rfl rfl rfl
  | pause => exact stepPreserves_of_eq _ _ rfl rfl rfl rfl
  | resume => exact stepPreserves_of_eq _ _ rfl rfl rfl rfl
  | reset => exact stepPreserves_of_eq _ _ rfl rfl rfl rfl
  | switchHand h now =>
      show StepPreserves st (switchHand st h now).1
      simp only [switchHand]
      split_ifs with hlen
      · exact StepPreserves.trans (finalizeSet_preserves st)
          (stepPreserves_of_eq _ _ rfl rfl rfl rfl)
      · exact stepPreserves_of_eq _ _ rfl rfl rfl rfl
  | setWeight w =>
      refine ⟨rfl, le_refl _, ⟨[], by rw [List.append_nil]; rfl, by simp⟩,
        fun r hr => Or.inl hr⟩

theorem runD_preserves (ops : List DetOp) (st : DetectorState) :
    StepPreserves st (runD st ops) := by
  induction ops generalizing st with
  | nil => exact stepPreserves_refl st
  | cons op ops ih =>
      exact StepPreserves.trans (stepD_preserves st op) (ih (stepD st op).1)

/-- `finalizeSet` never touches the rep counter. -/
theorem finalizeSet_repCounter (st : DetectorState) :
    (finalizeSet st).1.repCounter = st.repCounter := by
  unfold finalizeSet
  split_ifs <;> rfl

/-- The set-gap check never touches the rep counter. -/
theorem gapCheck_repCounter (st : DetectorState) (t : ℚ) :
    (gapCheck st t).1.repCounter = st.repCounter := by
  simp only [gapCheck]
  split_ifs with h
  · exact finalizeSet_repCounter st
  · rfl

/-- One detector call either emits no repetition and leaves the rep counter
unchanged, or emits exactly one repetition numbered `repCounter + 1` and
bumps the counter by one. -/
def RepsSpec (st : DetectorState) (r : DetectorState × DetOutput) : Prop :=
  (r.2.reps = [] ∧ r.1.repCounter = st.repCounter) ∨
  (r.2.reps.map RepData.repNumber = [st.repCounter + 1] ∧
    r.1.repCounter = st.repCounter + 1)

theorem onPhaseChange_repsSpec (st : DetectorState) (old np : SnatchPhase) (t : ℚ) :
    RepsSpec st (onPhaseChange st old np t) := by
  simp only [onPhaseChange]
  split_ifs <;>
    first
      | exact Or.inr ⟨rfl, rfl⟩
      | exact Or.inl ⟨rfl, rfl⟩

theorem phaseStep_repsSpec (st : DetectorState) (np : SnatchPhase) (t : ℚ) :
    RepsSpec st (phaseStep st np t) := by
  unfold phaseStep
  split_ifs with h
  · exact onPhaseChange_repsSpec st st.currentPhase np t
  · exact Or.inl ⟨rfl, rfl⟩

theorem processFrame_repsSpec (st : DetectorState) (f : PoseFrame) :
    RepsSpec st (processFrame st f) := by
  simp only [processFrame]
  split_ifs with hact
  · exact Or.inl ⟨rfl, rfl⟩
  · have hg := gapCheck_repCounter
      (phaseStep (ingest st f).1
        (detectPhase (ingest st f).1 (ingest st f).2.1 (ingest st f).2.2 f.jointAngles
          f.timestamp) f.timestamp).1 f.timestamp
    rcases phaseStep_repsSpec (ingest st f).1
        (detectPhase (ingest st f).1 (ingest st f).2.1 (ingest st f).2.2 f.jointAngles
          f.timestamp) f.timestamp with ⟨h1, h2⟩ | ⟨h1, h2⟩
    · exact Or.inl ⟨h1, hg.trans h2⟩
    · exact Or.inr ⟨h1, hg.trans h2⟩

theorem stepD_repsSpec (st : DetectorState) (op : DetOp) :
    RepsSpec st (stepD st op) := by
  cases op with
  | frame f => exact processFrame_repsSpec st f
  | start h now => exact Or.inl ⟨rfl, rfl⟩
  | stop now =>
      refine Or.inl ⟨rfl, ?_⟩
      show (stopDetector st now).1.repCounter = st.repCounter
      simp only [stopDetector]
      split_ifs with h
      · exact finalizeSet_repCounter _
      · rfl
  | pause => exact Or.inl ⟨rfl, rfl⟩
  | resume => exact Or.inl ⟨rfl, rfl⟩
  | reset => exact Or.inl ⟨rfl, rfl⟩
  | switchHand h now =>
      refine Or.inl ⟨rfl, ?_⟩
      show (switchHand st h now).1.repCounter = st.repCounter
      simp only [switchHand]
      split_ifs with hlen
      · exact finalizeSet_repCounter _
      · rfl
  | setWeight w => exact Or.inl ⟨rfl, rfl⟩

/-- Along any run, the emitted repetitions are numbered consecutively from
`repCounter + 1`, and the final counter is the initial counter plus the
number of emitted repetitions. -/
theorem runO_repNumbers (ops : List DetOp) (st : DetectorState) :
    (runO st ops).2.reps.map RepData.repNumber
      = List.range' (st.repCounter + 1) (runO st ops).2.reps.length ∧
    (runO st ops).1.repCounter = st.repCounter + (runO st ops).2.reps.length := by
  induction ops generalizing st with
  | nil => exact ⟨rfl, rfl⟩
  | cons op ops ih =>
      have h1 := stepD_repsSpec st op
      have ih2 := ih (stepD st op).1
      simp only [runO]
      have happ :
          (DetOutput.app (stepD st op).2 (runO (stepD st op).1 ops).2).reps
            = (stepD st op).2.reps ++ (runO (stepD st op).1 ops).2.reps := rfl
      rcases h1 with ⟨e1, c1⟩ | ⟨e1, c1⟩
      · constructor
        · rw [happ, e1, List.nil_append, ih2.1, c1]
        · rw [happ, e1, List.nil_append, ih2.2, c1]
      · have hlen1 : (stepD st op).2.reps.length = 1 := by
          have := congrArg List.length e1
          simpa using this
        constructor
        · rw [happ, List.map_append, e1, ih2.1, c1, List.length_append, hlen1]
          have := List.range'_append_1 (st.repCounter + 1) 1
            (runO (stepD st op).1 ops).2.reps.length
          rw [List.range'_one] at this
          rw [this]
          congr 1
          omega
        · rw [happ, ih2.2, c1, List.length_append, hlen1]
          omega

/-- C6: starting from a fresh detector, the repetitions delivered to the rep
callbacks over any session, taken in order of finalization, are numbered
`1, 2, 3, …` — strictly increasing with no gaps — regardless of how the
calls (frames, hand switches, stops, set boundaries) are interleaved. -/
theorem rep_numbers_gapless (cfg : SnatchDetectorConfig) (ops : List DetOp) :
    (runO (initState cfg) ops).2.reps.map RepData.repNumber
      = List.range' 1 (runO (initState cfg) ops).2.reps.length :=
  (runO_repNumbers ops (initState cfg)).1

/-- C5: (1) in every session run from a fresh detector, every set in the
session snapshot meets the configured minimum repetition count, so a
below-minimum set never appears in the snapshot's set list; and (2) when
`finalizeSet` silently discards a below-minimum buffer, no repetition of the
discarded buffer ever reappears — by repetition number — in any set
finalized later in the run. -/
theorem below_minimum_sets_are_discarded :
    (∀ (cfg : SnatchDetectorConfig) (ops : List DetOp) (now : ℚ),
      ∀ sd ∈ (getSessionData (runD (initState cfg) ops) now).sets,
        cfg.setDetection.minRepsForSet ≤ sd.reps.length) ∧
    (∀ st : DetectorState,
      (∀ r ∈ st.currentSetReps, r.repNumber ≤ st.repCounter) →
      st.currentSetReps.length < st.config.setDetection.minRepsForSet →
      ∀ (ops : List DetOp), ∀ sd ∈ (runD (finalizeSet st).1 ops).sets,
        sd ∈ st.sets ∨
          ∀ r ∈ st.currentSetReps, ∀ r2 ∈ sd.reps,
            r2.repNumber ≠ r.repNumber) := by
  constructor
  · intro cfg ops now sd hsd
    obtain ⟨hc, hn, ⟨L, hs, hL⟩, hb⟩ := runD_preserves ops (initState cfg)
    have hsd2 : sd ∈ (runD (initState cfg) ops).sets := hsd
    rw [hs] at hsd2
    rcases List.mem_append.mp hsd2 with h | h
    · exact absurd h (List.not_mem_nil sd)
    · exact (hL sd h).1
  · intro st hbuf hlt ops sd hsd
    have hfs : (finalizeSet st).1 = { st with currentSetReps := [] } := by
      unfold finalizeSet
      rw [if_pos hlt]
    obtain ⟨hc, hn, ⟨L, hs, hL⟩, hb⟩ := runD_preserves ops (finalizeSet st).1
    rw [hs] at hsd
    rw [hfs] at hsd hL
    rcases List.mem_append.mp hsd with h | h
    · exact Or.inl h
    · refine Or.inr fun r hr r2 hr2 => ?_
      rcases (hL sd h).2 r2 hr2 with hmem | hgt
      · exact absurd hmem (List.not_mem_nil r2)
      · have hle : r.repNumber ≤ st.repCounter := hbuf r hr
        have hgt2 : st.repCounter < r2.repNumber := hgt
        intro heq
        rw [heq] at hgt2
        omega

/-- Configuration for the C5 witness's first part: a zero minimum, so that
`stop` immediately emits an (empty) set. -/
def c5cfg : SnatchDetectorConfig :=
  { DEFAULT_CONFIG with setDetection := { maxRepGap := 5000, minRepsForSet := 0 } }

/-- State for the C5 witness's second part: a one-rep buffer below a 2-rep
minimum, one already-finalized set, rep counter 1. -/
def c5state : DetectorState :=
  { initState { DEFAULT_CONFIG with
        setDetection := { maxRepGap := 5000, minRepsForSet := 2 } } with
      currentSetReps := [mkRep 1 (num 1) (num 100)]
      sets := [dummySet]
      repCounter := 1 }

/-- Witness for C5: the empty set emitted under a zero minimum meets the
minimum, and the set already finalized before a silent discard is untouched
by it. -/
theorem below_minimum_sets_are_discarded_witness :
    c5cfg.setDetection.minRepsForSet ≤
      ((getSessionData (runD (initState c5cfg) [DetOp.stop 0]) 0).sets.headD
        dummySet).reps.length ∧
    (dummySet ∈ c5state.sets ∨
      ∀ r ∈ c5state.currentSetReps, ∀ r2 ∈ dummySet.reps,
        r2.repNumber ≠ r.repNumber) :=
  ⟨below_minimum_sets_are_discarded.1 c5cfg [DetOp.stop 0] 0 _ (List.Mem.head _),
   below_minimum_sets_are_discarded.2 c5state (by decide) (by decide) [] dummySet
     (List.Mem.head _)⟩
